import Mathlib

/-!
Verification of the erased-object container (`DynTrait`) and the additive
struct-layout-evolution machinery of the `abi_stable` crate, as a shallow
embedding in Lean.

The embedding follows the Rust source:

* `src/abi_stable/src/erased_types/dyn_trait.rs` — the `DynTrait` container,
  its construction entry points, the type-identity check, the recovery
  (unerase) operations, reborrowing, comparison, and `Drop`.
* `src/abi_stable/src/prefix_type.rs` — `PrefixTypeMetadata`, `max`,
  `min_max`, and the missing-field panic functions.
* `src/abi_stable/src/std_types/boxed.rs` — `destroy_box`, `BoxVtable`,
  and `RBox`'s `Drop`.

Pointers are modelled by the value they denote (a `Nat` token):
`transmute_element` (erasure) and `ptr::read` (recovery) leave the pointer
bits unchanged in the source, so the container's `object` field carries the
denotation unchanged through erase/unerase.  Vtable statics live at `Nat`
addresses inside an explicit environment `Env`; the low four bits of the
stored vtable pointer are the flag bits exactly as in the source
(`PTR_FLAGS`/`PTR_MASK`/`PTR_FLAG_IS_BORROWED`, dyn_trait.rs lines
1129-1131).
-/

namespace AbiStable

/-- Models `const PTR_FLAGS: usize = 0b1111` (dyn_trait.rs line 1129). -/
def PTR_FLAGS : Nat := 15

/-- Models `const PTR_MASK: usize = !PTR_FLAGS` (dyn_trait.rs line 1130); the
bitwise complement on a 64-bit `usize` is `2 ^ 64 - 1 - PTR_FLAGS`. -/
def PTR_MASK : Nat := 2 ^ 64 - 1 - PTR_FLAGS

/-- Models `const PTR_FLAG_IS_BORROWED: usize = 0b_0001` (dyn_trait.rs line 1131). -/
def PTR_FLAG_IS_BORROWED : Nat := 1

theorem PTR_MASK_eq : PTR_MASK = 2 ^ 64 - 16 := by
  unfold PTR_MASK PTR_FLAGS
  norm_num

theorem testBit_PTR_MASK (i : Nat) :
    PTR_MASK.testBit i = (decide (4 ≤ i) && decide (i < 64)) := by
  have h : PTR_MASK = (2 ^ 60 - 1) <<< 4 := by
    rw [PTR_MASK_eq, Nat.shiftLeft_eq]
    norm_num
  rw [h, Nat.testBit_shiftLeft, Nat.testBit_two_pow_sub_one]
  rcases Nat.lt_or_ge i 4 with hi | hi
  · simp [Nat.not_le.mpr hi]
  · have : i - 4 < 60 ↔ i < 64 := by omega
    simp [hi, this]

/-- A value below `2 ^ 64` whose low four bits are clear is unchanged by
masking the flag bits off. -/
theorem land_PTR_MASK_of_aligned {v : Nat} (h16 : v % 16 = 0)
    (hlt : v < 2 ^ 64) : v &&& PTR_MASK = v := by
  apply Nat.eq_of_testBit_eq
  intro i
  rw [Nat.testBit_and, testBit_PTR_MASK]
  rcases Nat.lt_or_ge i 4 with hi | hi
  · have hv : v.testBit i = false := by
      have hmod : (v % 2 ^ 4).testBit i = (decide (i < 4) && v.testBit i) :=
        Nat.testBit_mod_two_pow v 4 i
      rw [show (2 : Nat) ^ 4 = 16 by norm_num, h16] at hmod
      simpa [Nat.zero_testBit, hi] using hmod.symm
    simp [hv]
  · rcases Nat.lt_or_ge i 64 with hi64 | hi64
    · simp [hi, hi64]
    · have hv : v.testBit i = false :=
        Nat.testBit_lt_two_pow (Nat.lt_of_lt_of_le hlt (Nat.pow_le_pow_right (by norm_num) hi64))
      simp [hv]

/-- Setting the borrowed flag never changes the masked vtable address. -/
theorem lor_borrowed_land_PTR_MASK (v : Nat) :
    (v ||| PTR_FLAG_IS_BORROWED) &&& PTR_MASK = v &&& PTR_MASK := by
  apply Nat.eq_of_testBit_eq
  intro i
  rw [Nat.testBit_and, Nat.testBit_and, Nat.testBit_or, testBit_PTR_MASK]
  have h1 : (PTR_FLAG_IS_BORROWED).testBit i = decide (0 = i) := by
    have : PTR_FLAG_IS_BORROWED = 2 ^ 0 := rfl
    rw [this, Nat.testBit_two_pow]
  rcases eq_or_ne i 0 with rfl | hi
  · simp
  · rw [h1]
    simp [Ne.symm hi]

/-- A 16-aligned value has zero flag bits. -/
theorem land_PTR_FLAGS_of_aligned {v : Nat} (h16 : v % 16 = 0) :
    v &&& PTR_FLAGS = 0 := by
  apply Nat.eq_of_testBit_eq
  intro i
  rw [Nat.testBit_and]
  have hflags : PTR_FLAGS = 2 ^ 4 - 1 := by norm_num [PTR_FLAGS]
  rw [hflags, Nat.testBit_two_pow_sub_one]
  rcases Nat.lt_or_ge i 4 with hi | hi
  · have hv : v.testBit i = false := by
      have hmod : (v % 2 ^ 4).testBit i = (decide (i < 4) && v.testBit i) :=
        Nat.testBit_mod_two_pow v 4 i
      rw [show (2 : Nat) ^ 4 = 16 by norm_num, h16] at hmod
      simpa [Nat.zero_testBit, hi] using hmod.symm
    simp [hv]
  · simp [Nat.not_lt.mpr hi, Nat.zero_testBit]

/-- After `||| PTR_FLAG_IS_BORROWED`, the borrowed flag bit reads back set. -/
theorem flags_of_lor_borrowed (v : Nat) :
    ((v ||| PTR_FLAG_IS_BORROWED) &&& PTR_FLAGS) &&& PTR_FLAG_IS_BORROWED
      = PTR_FLAG_IS_BORROWED := by
  apply Nat.eq_of_testBit_eq
  intro i
  rw [Nat.testBit_and, Nat.testBit_and, Nat.testBit_or]
  have hone : (PTR_FLAG_IS_BORROWED).testBit i = decide (0 = i) := by
    have : PTR_FLAG_IS_BORROWED = 2 ^ 0 := rfl
    rw [this, Nat.testBit_two_pow]
  have hflags : PTR_FLAGS = 2 ^ 4 - 1 := by norm_num [PTR_FLAGS]
  rw [hflags, Nat.testBit_two_pow_sub_one, hone]
  rcases eq_or_ne i 0 with rfl | hi
  · simp
  · simp [Ne.symm hi]

/-- A value with zero flag bits does not have the borrowed flag set. -/
theorem flags_zero_not_borrowed {v : Nat} (h : v &&& PTR_FLAGS = 0) :
    (v &&& PTR_FLAGS) &&& PTR_FLAG_IS_BORROWED ≠ PTR_FLAG_IS_BORROWED := by
  rw [h]
  simp [PTR_FLAG_IS_BORROWED]

/-- Modelled from the spec: the type-identity token attached to a vtable
(`TypeInfo` and `TypeInfo::is_compatible` live in the crate's
`erased_types::type_info` module, which is not part of the included
sources).  Per spec section 4.2 the compatibility check structurally
compares the two types' layout descriptors: name, field layout, size and
alignment. -/
structure TypeInfo where
  name : String
  size : Nat
  alignment : Nat
  field_layout : List String
deriving DecidableEq, Repr

/-- Modelled from the spec: `TypeInfo::is_compatible` structurally compares
the two layout descriptors, returning `true` exactly on structural
identity (spec section 4.2). -/
def TypeInfo.is_compatible (a b : TypeInfo) : Bool :=
  decide (a = b)

theorem TypeInfo.is_compatible_comm (a b : TypeInfo) :
    a.is_compatible b = b.is_compatible a := by
  simp only [TypeInfo.is_compatible]
  by_cases h : a = b
  · simp [h]
  · simp [h, Ne.symm h]

/-- Modelled from the spec: the dispatch table (`VTable` of
`erased_types::vtable`, not part of the included sources).  It carries the
type-identity token of the erased type and one function per capability;
the capability functions operate on the erased object's denotation (spec
section 4.4). -/
structure VTable where
  type_info : TypeInfo
  partial_eq : Nat → Nat → Bool
  cmp : Nat → Nat → Ordering
  partial_cmp : Nat → Nat → Option Ordering

/-- The world the container runs in: the contents of the vtable static at
every address, and the address `GetVtable::get_vtable` returns for every
concrete-type key (a `Nat` standing for the `(T, I, Erasability)` triple
instantiating `GetVtable`).  Vtable statics are `usize` addresses of
16-byte-aligned statics, so their low four bits are free to hold the
pointer flags — the tagging assumption the source relies on
(dyn_trait.rs lines 987, 1012 tag the low bits; spec section 3 describes
the table reference as "tagged in its low bits"). -/
structure Env where
  vtableAt : Nat → VTable
  get_vtable : Nat → Nat
  get_vtable_aligned : ∀ k, get_vtable k % 16 = 0
  get_vtable_lt : ∀ k, get_vtable k < 2 ^ 64

/-- Models `GetPointerKind::Kind`: `PK_SmartPointer`, `PK_Reference` or
`PK_MutReference` (pointer_trait, referenced from dyn_trait.rs lines
1071, 1149, 1163). -/
inductive PointerKind where
  | smartPointer
  | reference
  | mutReference
deriving DecidableEq, Repr

/-- The capability descriptor `I : InterfaceType`, value-level: one flag
per capability used by the claims (associated types `Send`, `Sync`,
`Clone`, `Default` of the interface, dyn_trait.rs lines 981, 1072,
1152). -/
structure Interface where
  send : Bool
  sync : Bool
  clone : Bool
  defaultFlag : Bool
deriving DecidableEq, Repr

/-- The erased-object container (dyn_trait.rs lines 451-460):
`object` is the denotation of the erased pointer `ManuallyDrop<P>`,
`vtable` the tagged `*const VTable` as a `usize`, `extra_vtable` the `EV`
payload.  The type parameters `I` (interface) and the pointer kind are
carried value-level. -/
structure DynTrait where
  object : Nat
  vtable : Nat
  extra_vtable : Nat
  interface : Interface
  ptrKind : PointerKind
deriving DecidableEq, Repr

namespace DynTrait

/-- Models `DynTrait::from_ptr` (dyn_trait.rs lines 481-497): erases the pointer
with `transmute_element` (denotation unchanged) and stores
`T::get_vtable()` untagged.  `k` is the `GetVtable` key of `T : ImplType`. -/
def from_ptr (env : Env) (k : Nat) (p : Nat) (i : Interface)
    (pk : PointerKind) : DynTrait :=
  { object := p
    vtable := env.get_vtable k
    extra_vtable := 0
    interface := i
    ptrKind := pk }

/-- Models `DynTrait::from_value` (dyn_trait.rs lines 467-475): boxes the value
with `RBox::new` then delegates to `from_ptr`; the fresh box denotes the
value and has smart-pointer kind. -/
def from_value (env : Env) (k : Nat) (v : Nat) (i : Interface) : DynTrait :=
  from_ptr env k v i .smartPointer

/-- Models `DynTrait::from_any_ptr` (dyn_trait.rs lines 512-531): same
construction, keyed by `InterfaceFor<T, I, TU_Unerasable>`. -/
def from_any_ptr (env : Env) (k : Nat) (p : Nat) (i : Interface)
    (pk : PointerKind) : DynTrait :=
  { object := p
    vtable := env.get_vtable k
    extra_vtable := 0
    interface := i
    ptrKind := pk }

/-- Models `DynTrait::from_any_value` (dyn_trait.rs lines 500-508): boxes the
value then delegates to `from_any_ptr`. -/
def from_any_value (env : Env) (k : Nat) (v : Nat) (i : Interface) : DynTrait :=
  from_any_ptr env k v i .smartPointer

/-- Models `DynTrait::from_borrowing_ptr` (dyn_trait.rs lines 553-572): same
construction, keyed by `InterfaceFor<T, I, TU_Opaque>`; the result is
permanently opaque (no recovery entry points are exposed for it). -/
def from_borrowing_ptr (env : Env) (k : Nat) (p : Nat) (i : Interface)
    (pk : PointerKind) : DynTrait :=
  { object := p
    vtable := env.get_vtable k
    extra_vtable := 0
    interface := i
    ptrKind := pk }

/-- Models `DynTrait::from_borrowing_value` (dyn_trait.rs lines 536-547). -/
def from_borrowing_value (env : Env) (k : Nat) (v : Nat) (i : Interface) :
    DynTrait :=
  from_borrowing_ptr env k v i .smartPointer

/-- Models `DynTrait::with_vtable` (dyn_trait.rs lines 602-623): erases a pointer
and stores the vtable for `InterfaceFor<OrigPtr::Target, I, Erasability>`
together with an extra vtable payload. -/
def with_vtable (env : Env) (k : Nat) (p : Nat) (i : Interface)
    (pk : PointerKind) (ev : Nat) : DynTrait :=
  { object := p
    vtable := env.get_vtable k
    extra_vtable := ev
    interface := i
    ptrKind := pk }

/-- Models `DynTrait::sabi_vtable` (dyn_trait.rs lines 672-677): dereferences the
stored vtable pointer with the flag bits masked off. -/
def sabi_vtable (env : Env) (self : DynTrait) : VTable :=
  env.vtableAt (self.vtable &&& PTR_MASK)

/-- Models `DynTrait::sabi_vtable_address` (dyn_trait.rs lines 679-682). -/
def sabi_vtable_address (self : DynTrait) : Nat :=
  self.vtable &&& PTR_MASK

/-- Models `DynTrait::sabi_vtable_ptr_flags` (dyn_trait.rs lines 684-686). -/
def sabi_vtable_ptr_flags (self : DynTrait) : Nat :=
  self.vtable &&& PTR_FLAGS

/-- Models `DynTrait::sabi_is_same_type` (dyn_trait.rs lines 641-647): vtable
addresses equal, or type-info descriptors compatible. -/
def sabi_is_same_type (env : Env) (self other : DynTrait) : Bool :=
  self.sabi_vtable_address == other.sabi_vtable_address
    || (self.sabi_vtable env).type_info.is_compatible
        (other.sabi_vtable env).type_info

end DynTrait

/-- Models `UneraseError<T>` (dyn_trait.rs lines 1712-1718): failed-recovery
diagnostic carrying the original data plus both vtables' addresses and
type-info descriptors. -/
structure UneraseError (T : Type) where
  dyn_trait : T
  expected_vtable_address : Nat
  expected_type_info : TypeInfo
  found_vtable_address : Nat
  found_type_info : TypeInfo
deriving DecidableEq

/-- Models `UneraseError::map` (dyn_trait.rs lines 1722-1732). -/
def UneraseError.map {T U : Type} (self : UneraseError T) (f : T → U) :
    UneraseError U :=
  { dyn_trait := f self.dyn_trait
    expected_vtable_address := self.expected_vtable_address
    expected_type_info := self.expected_type_info
    found_vtable_address := self.found_vtable_address
    found_type_info := self.found_type_info }

/-- Models `UneraseError::into_inner` (dyn_trait.rs lines 1736-1738). -/
def UneraseError.into_inner {T : Type} (self : UneraseError T) : T :=
  self.dyn_trait

namespace DynTrait

/-- Models `DynTrait::sabi_check_same_destructor` (dyn_trait.rs lines 754-773):
passes when the stored (masked) vtable address equals the address of the
vtable freshly derived for the candidate type key `k`, or when the two
type-info descriptors are compatible; otherwise builds the `UneraseError`
with the raw (unmasked) stored pointer as `found_vtable_address`. -/
def sabi_check_same_destructor (env : Env) (k : Nat) (self : DynTrait) :
    Except (UneraseError Unit) Unit :=
  let t_vtable_address := env.get_vtable k
  if self.sabi_vtable_address == t_vtable_address
      || (self.sabi_vtable env).type_info.is_compatible
          (env.vtableAt t_vtable_address).type_info
  then .ok ()
  else .error
    { dyn_trait := ()
      expected_vtable_address := t_vtable_address
      expected_type_info := (env.vtableAt t_vtable_address).type_info
      found_vtable_address := self.vtable
      found_type_info := (self.sabi_vtable env).type_info }

/-- Models `DynTrait::sabi_into_unerased` (dyn_trait.rs lines 791-802): on a
passing check, reads the erased pointer back out (`ptr::read` +
`transmute_element`, denotation unchanged); on failure the
`check_unerased!` macro returns the error mapped to carry `self`
unchanged.  `k` is the `GetVtable` key of `T : ImplType`. -/
def sabi_into_unerased (env : Env) (k : Nat) (self : DynTrait) :
    Except (UneraseError DynTrait) Nat :=
  match self.sabi_check_same_destructor env k with
  | .ok () => .ok self.object
  | .error e => .error (e.map fun _ => self)

/-- Models `DynTrait::sabi_as_unerased` (dyn_trait.rs lines 820-827): shared
reference to the concrete value; the error carries the borrowed `self`. -/
def sabi_as_unerased (env : Env) (k : Nat) (self : DynTrait) :
    Except (UneraseError DynTrait) Nat :=
  match self.sabi_check_same_destructor env k with
  | .ok () => .ok self.object
  | .error e => .error (e.map fun _ => self)

/-- Models `DynTrait::sabi_as_unerased_mut` (dyn_trait.rs lines 845-852). -/
def sabi_as_unerased_mut (env : Env) (k : Nat) (self : DynTrait) :
    Except (UneraseError DynTrait) Nat :=
  match self.sabi_check_same_destructor env k with
  | .ok () => .ok self.object
  | .error e => .error (e.map fun _ => self)

/-- Models `DynTrait::sabi_into_any_unerased` (dyn_trait.rs lines 871-889): same
flow, keyed by `InterfaceFor<T, I, TU_Unerasable>` — the key
`from_any_value`/`from_any_ptr` constructed with. -/
def sabi_into_any_unerased (env : Env) (k : Nat) (self : DynTrait) :
    Except (UneraseError DynTrait) Nat :=
  match self.sabi_check_same_destructor env k with
  | .ok () => .ok self.object
  | .error e => .error (e.map fun _ => self)

/-- Models `DynTrait::sabi_as_any_unerased` (dyn_trait.rs lines 907-919). -/
def sabi_as_any_unerased (env : Env) (k : Nat) (self : DynTrait) :
    Except (UneraseError DynTrait) Nat :=
  match self.sabi_check_same_destructor env k with
  | .ok () => .ok self.object
  | .error e => .error (e.map fun _ => self)

/-- Models `DynTrait::sabi_as_any_unerased_mut` (dyn_trait.rs lines 937-948). -/
def sabi_as_any_unerased_mut (env : Env) (k : Nat) (self : DynTrait) :
    Except (UneraseError DynTrait) Nat :=
  match self.sabi_check_same_destructor env k with
  | .ok () => .ok self.object
  | .error e => .error (e.map fun _ => self)

end DynTrait

/-- The `ReborrowBounds` trait (dyn_trait.rs lines 961-965): reborrowing
is admitted only through the two impls `ReborrowBounds<False, False>` and
`ReborrowBounds<True, True>` — the interface's `Send` and `Sync` flags
must be equal. -/
inductive ReborrowBounds : Bool → Bool → Prop where
  | neither : ReborrowBounds false false
  | both : ReborrowBounds true true

theorem ReborrowBounds.iff_eq (s y : Bool) :
    ReborrowBounds s y ↔ s = y := by
  constructor
  · rintro (_ | _) <;> rfl
  · rintro rfl
    cases s
    · exact .neither
    · exact .both

namespace DynTrait

/-- Models `DynTrait::reborrow` (dyn_trait.rs lines 978-992): borrows the same
object, tags the vtable pointer with `PTR_FLAG_IS_BORROWED`, copies the
extra vtable, keeps the interface `I`, and produces a `&'re ()` pointer
(reference kind).  Requires `ReborrowBounds<I::Send, I::Sync>`. -/
def reborrow (self : DynTrait)
    (_h : ReborrowBounds self.interface.send self.interface.sync) : DynTrait :=
  { object := self.object
    vtable := self.vtable ||| PTR_FLAG_IS_BORROWED
    extra_vtable := self.extra_vtable
    interface := self.interface
    ptrKind := .reference }

/-- Models `DynTrait::reborrow_mut` (dyn_trait.rs lines 1002-1017): as `reborrow`
but producing a `&'re mut ()` pointer (mutable-reference kind). -/
def reborrow_mut (self : DynTrait)
    (_h : ReborrowBounds self.interface.send self.interface.sync) : DynTrait :=
  { object := self.object
    vtable := self.vtable ||| PTR_FLAG_IS_BORROWED
    extra_vtable := self.extra_vtable
    interface := self.interface
    ptrKind := .mutReference }

end DynTrait

/-- Models `CallReferentDrop` of `pointer_trait` (consumed at boxed.rs lines
462, 503).  Modelled from the spec: the "run the referent's destructor"
flag of the destructor function pointer (spec section 4.4). -/
inductive CallReferentDrop where
  | yes
  | no
deriving DecidableEq, Repr

/-- Models `Deallocate` of `pointer_trait` (consumed at boxed.rs lines 462,
506).  Modelled from the spec: the "free the backing allocation" flag of
the destructor function pointer (spec section 4.4). -/
inductive Deallocate where
  | yes
  | no
deriving DecidableEq, Repr

/-- A primitive effect on the heap performed by a destructor call. -/
inductive HeapOp where
  | dropInPlace (addr : Nat)
  | deallocate (addr : Nat)
deriving DecidableEq, Repr

/-- Models `destroy_box` (boxed.rs lines 500-510): runs `ptr::drop_in_place`
exactly when `call_drop` is `Yes`, then frees the allocation
(`Box::from_raw` of a `ManuallyDrop`, so no second destructor run)
exactly when `dealloc` is `Yes`.  The result lists the heap effects in
order. -/
def destroy_box (ptr : Nat) (call_drop : CallReferentDrop)
    (dealloc : Deallocate) : List HeapOp :=
  (match call_drop with
    | .yes => [HeapOp.dropInPlace ptr]
    | .no => [])
  ++
  (match dealloc with
    | .yes => [HeapOp.deallocate ptr]
    | .no => [])

/-- The observable effect of dropping one `DynTrait`. -/
inductive DropEffect where
  | noop
  | invokeDestructor (vtable_address : Nat) (object : Nat)
      (call_drop : CallReferentDrop) (dealloc : Deallocate)
deriving DecidableEq, Repr

namespace DynTrait

/-- Models `impl Drop for DynTrait` (dyn_trait.rs lines 1110-1124): when the
borrowed flag is set in the pointer flag bits, do nothing; otherwise call
the vtable's `drop_ptr` on the object exactly once.  For an owning
pointer the destructor runs with referent-drop and deallocation both
requested, as in `RBox`'s own `Drop` (boxed.rs lines 443-451, which
invokes the stored destructor with `CallReferentDrop::Yes,
Deallocate::Yes`). -/
def dropEffect (self : DynTrait) : DropEffect :=
  if self.sabi_vtable_ptr_flags &&& PTR_FLAG_IS_BORROWED
      == PTR_FLAG_IS_BORROWED
  then .noop
  else .invokeDestructor self.sabi_vtable_address self.object .yes .yes

end DynTrait

/-- Number of destructor invocations in a sequence of drop effects. -/
def destructorCount (effects : List DropEffect) : Nat :=
  effects.countP fun e =>
    match e with
    | .noop => false
    | .invokeDestructor _ _ _ _ => true

namespace DynTrait

/-- Models `impl PartialEq for DynTrait` (dyn_trait.rs lines 1277-1291):
incompatible erased types compare unequal; otherwise the vtable's
`partial_eq` runs on the two erased objects. -/
def dynEq (env : Env) (self other : DynTrait) : Bool :=
  if !(self.sabi_is_same_type env other) then
    false
  else
    (self.sabi_vtable env).partial_eq self.object other.object

/-- Models `impl Ord for DynTrait` (dyn_trait.rs lines 1293-1307): incompatible
erased types order by their vtable addresses; otherwise the vtable's
`cmp` runs on the two erased objects. -/
def dynCmp (env : Env) (self other : DynTrait) : Ordering :=
  if !(self.sabi_is_same_type env other) then
    compare self.sabi_vtable_address other.sabi_vtable_address
  else
    (self.sabi_vtable env).cmp self.object other.object

/-- Models `impl PartialOrd for DynTrait` (dyn_trait.rs lines 1309-1326):
incompatible erased types yield `Some` of the vtable-address comparison;
otherwise the vtable's `partial_cmp` runs on the two erased objects. -/
def dynPartialCmp (env : Env) (self other : DynTrait) : Option Ordering :=
  if !(self.sabi_is_same_type env other) then
    some (compare self.sabi_vtable_address other.sabi_vtable_address)
  else
    (self.sabi_vtable env).partial_cmp self.object other.object

/-- Models `DynTrait::default` availability (dyn_trait.rs lines 1069-1077): the
method exists only with `P: GetPointerKind<Kind = PK_SmartPointer>` and
`I: InterfaceType<Default = True>`. -/
def default_available (self : DynTrait) : Bool :=
  (self.ptrKind == .smartPointer) && self.interface.defaultFlag

/-- Models `Clone` availability (dyn_trait.rs lines 1149-1203): `CloneImpl` has
an impl for `PK_SmartPointer` (any `P: Deref`) and one for `PK_Reference`
(`P: Copy`, satisfied by `&()`), both requiring `I: InterfaceBound<Clone
= True>`; no impl exists for `PK_MutReference` (`&mut ()` is not `Copy`),
so an exclusive reborrow cannot be cloned. -/
def clone_available (self : DynTrait) : Bool :=
  match self.ptrKind with
  | .smartPointer => self.interface.clone
  | .reference => self.interface.clone
  | .mutReference => false

end DynTrait

/-- Models `TLField` of `abi_stability::type_layout` (consumed in
prefix_type.rs).  Only the parts read by the panic message are modelled:
the field's name (`field.name`) and the full type name of the field's own
layout (`field.abi_info.get().layout.full_type`). -/
structure TLField where
  name : String
  ty_full_type : String
deriving DecidableEq, Repr

/-- Models `TLData` of `abi_stability::type_layout` as matched in
`PrefixTypeMetadata::new` (prefix_type.rs lines 37-48): either a
prefix-type with its first suffix-field index and field list, or any
other data variant. -/
inductive TLData where
  | prefixType (first_suffix_field : Nat) (fields : List TLField)
  | other
deriving DecidableEq, Repr

/-- Models `TypeLayout` of `abi_stability::type_layout`, restricted to the parts
prefix_type.rs reads: the printed full type name, package name, package
version string and the data variant. -/
structure TypeLayout where
  full_type : String
  package : String
  package_version : String
  data : TLData
deriving DecidableEq, Repr

/-- Models `PrefixTypeMetadata` (prefix_type.rs lines 22-32). -/
structure PrefixTypeMetadata where
  prefix_field_count : Nat
  fields : List TLField
  layout : TypeLayout
deriving DecidableEq, Repr

/-- The missing-field diagnostic: each named datum interpolated into the
panic message of `panic_on_missing_field_val` (prefix_type.rs lines
108-138). -/
structure MissingFieldDiag where
  index : Nat
  field_named : String
  field_type : String
  struct_type : String
  package : String
  expected_package_version : String
  expected_field_count : Nat
  actual_package_version : String
  actual_field_count : Nat
deriving DecidableEq, Repr

/-- The ways a prefix-type operation aborts: constructing metadata from a
non-prefix layout (prefix_type.rs lines 40-47), indexing
`expected.fields` out of bounds (line 106), or the missing-field
diagnostic itself (lines 108-138). -/
inductive PrefixPanic where
  | nonPrefixType (full_type : String) (package : String)
  | fieldIndexOutOfBounds (index : Nat) (len : Nat)
  | missingField (diag : MissingFieldDiag)
deriving DecidableEq, Repr

namespace PrefixTypeMetadata

/-- Models `PrefixTypeMetadata::new` (prefix_type.rs lines 36-54): reads the
suffix boundary and field list out of a prefix-type layout; panics on any
other layout. -/
def new (layout : TypeLayout) : Except PrefixPanic PrefixTypeMetadata :=
  match layout.data with
  | .prefixType first_suffix_field fields =>
      .ok
        { prefix_field_count := first_suffix_field
          fields := fields
          layout := layout }
  | .other => .error (.nonPrefixType layout.full_type layout.package)

/-- Models `PrefixTypeMetadata::max` (prefix_type.rs lines 61-67). -/
def max (self other : PrefixTypeMetadata) : PrefixTypeMetadata :=
  if self.fields.length < other.fields.length then
    other
  else
    self

/-- Models `PrefixTypeMetadata::min_max` (prefix_type.rs lines 73-79). -/
def min_max (self other : PrefixTypeMetadata) :
    PrefixTypeMetadata × PrefixTypeMetadata :=
  if self.fields.length < other.fields.length then
    (self, other)
  else
    (other, self)

end PrefixTypeMetadata

/-- Models `panic_on_missing_field_val` (prefix_type.rs lines 98-139): never
returns normally; its result is the panic it raises.  It rebuilds both
metadata views, reads the requested field out of the expected layout, and
aborts with the full expected/actual diagnostic. -/
def panic_on_missing_field_val (field_index : Nat)
    (expected actual : TypeLayout) : PrefixPanic :=
  match PrefixTypeMetadata.new expected with
  | .error p => p
  | .ok e =>
    match PrefixTypeMetadata.new actual with
    | .error p => p
    | .ok a =>
      match e.fields[field_index]? with
      | none => .fieldIndexOutOfBounds field_index e.fields.length
      | some field =>
        .missingField
          { index := field_index
            field_named := field.name
            field_type := field.ty_full_type
            struct_type := e.layout.full_type
            package := e.layout.package
            expected_package_version := e.layout.package_version
            expected_field_count := e.fields.length
            actual_package_version := a.layout.package_version
            actual_field_count := a.fields.length }

/-- Models `panic_on_missing_field_ty::<T>` (prefix_type.rs lines 87-91):
delegates to `panic_on_missing_field_val` with `T::layout()` as the
expected layout. -/
def panic_on_missing_field_ty (t_layout : TypeLayout) (field_index : Nat)
    (actual_layout : TypeLayout) : PrefixPanic :=
  panic_on_missing_field_val field_index t_layout actual_layout

/-- Modelled from the spec: the generated prefix-type field accessor
(`get_field(index)` of spec section 4.3; the accessor itself is emitted
by the `StableAbi` derive macro, which is not part of the included
sources).  It returns a field view when `index` is below the actual
stored field count and otherwise fails through
`panic_on_missing_field_val` exactly as the spec and the panic functions
in prefix_type.rs prescribe. -/
def get_field (expected actual : TypeLayout) (index : Nat) :
    Except PrefixPanic TLField :=
  match PrefixTypeMetadata.new actual with
  | .error p => .error p
  | .ok a =>
    match a.fields[index]? with
    | some f => .ok f
    | none => .error (panic_on_missing_field_val index expected actual)

/-! ## Helper lemmas and a concrete world for the witnesses -/

theorem nat_beq_comm (x y : Nat) : (x == y) = (y == x) := by
  by_cases h : x = y
  · simp [h]
  · simp [h, Ne.symm h]

/-- Symmetry of the two-tier identity check: address equality and the
structural fallback are both symmetric. -/
theorem sabi_is_same_type_comm (env : Env) (a b : DynTrait) :
    a.sabi_is_same_type env b = b.sabi_is_same_type env a := by
  unfold DynTrait.sabi_is_same_type
  rw [TypeInfo.is_compatible_comm, nat_beq_comm]

/-- A container whose stored vtable pointer is exactly the address
`get_vtable` returns for key `k` passes the destructor-identity check on
the address fast path. -/
theorem check_same_destructor_ok_of_vtable_eq (env : Env) (k : Nat)
    (self : DynTrait) (h : self.vtable = env.get_vtable k) :
    self.sabi_check_same_destructor env k = .ok () := by
  have haddr : self.sabi_vtable_address = env.get_vtable k := by
    unfold DynTrait.sabi_vtable_address
    rw [h]
    exact land_PTR_MASK_of_aligned (env.get_vtable_aligned k) (env.get_vtable_lt k)
  simp [DynTrait.sabi_check_same_destructor, haddr]

/-- A failing check produces exactly the diagnostic of
dyn_trait.rs lines 765-771. -/
theorem check_same_destructor_error (env : Env) (k : Nat) (self : DynTrait)
    (haddr : self.sabi_vtable_address ≠ env.get_vtable k)
    (hinfo : (self.sabi_vtable env).type_info.is_compatible
        (env.vtableAt (env.get_vtable k)).type_info = false) :
    self.sabi_check_same_destructor env k = .error
      { dyn_trait := ()
        expected_vtable_address := env.get_vtable k
        expected_type_info := (env.vtableAt (env.get_vtable k)).type_info
        found_vtable_address := self.vtable
        found_type_info := (self.sabi_vtable env).type_info } := by
  unfold DynTrait.sabi_check_same_destructor
  simp [haddr, hinfo]

/-- A small concrete world instantiating the theorems: key `k`'s vtable
static sits at address `16 * (k % 1024) + 16`, and the vtable at address
`a` carries a type-info descriptor whose `size` component is `a`, so
vtables at distinct addresses carry structurally different descriptors. -/
def envW : Env :=
  { vtableAt := fun a =>
      { type_info := { name := "t", size := a, alignment := 1, field_layout := [] }
        partial_eq := fun x y => x == y
        cmp := fun x y => compare x y
        partial_cmp := fun x y => some (compare x y) }
    get_vtable := fun k => 16 * (k % 1024) + 16
    get_vtable_aligned := by
      intro k
      show (16 * (k % 1024) + 16) % 16 = 0
      omega
    get_vtable_lt := by
      intro k
      show 16 * (k % 1024) + 16 < 2 ^ 64
      have h : k % 1024 < 1024 := Nat.mod_lt k (by norm_num)
      have h2 : (2 : Nat) ^ 64 = 18446744073709551616 := by norm_num
      omega }

/-- The interface flags used by the witnesses. -/
def interfaceW : Interface :=
  { send := false, sync := false, clone := true, defaultFlag := true }

/-- The diagnostic a failed recovery of container `c` with candidate key
`k` produces (dyn_trait.rs lines 765-771 mapped through `check_unerased!`
to carry `c`). -/
def expectedUneraseError (env : Env) (k : Nat) (c : DynTrait) :
    UneraseError DynTrait :=
  { dyn_trait := c
    expected_vtable_address := env.get_vtable k
    expected_type_info := (env.vtableAt (env.get_vtable k)).type_info
    found_vtable_address := c.vtable
    found_type_info := (c.sabi_vtable env).type_info }

/-! ## The claims -/

/-- C1: for every world, type key, interface and value/pointer, erasing
through a `from_*` construction entry point and immediately recovering
with the same type key through the matching recovery entry point
succeeds, and the recovered pointer denotes exactly the original
value. -/
theorem C1_construct_recover_roundtrip (env : Env) (k p v : Nat)
    (i : Interface) (pk : PointerKind) :
    DynTrait.sabi_into_any_unerased env k (DynTrait.from_any_value env k v i)
      = .ok v
  ∧ DynTrait.sabi_into_any_unerased env k (DynTrait.from_any_ptr env k p i pk)
      = .ok p
  ∧ DynTrait.sabi_as_any_unerased env k (DynTrait.from_any_ptr env k p i pk)
      = .ok p
  ∧ DynTrait.sabi_as_any_unerased_mut env k (DynTrait.from_any_ptr env k p i pk)
      = .ok p
  ∧ DynTrait.sabi_into_unerased env k (DynTrait.from_value env k v i)
      = .ok v
  ∧ DynTrait.sabi_into_unerased env k (DynTrait.from_ptr env k p i pk)
      = .ok p
  ∧ DynTrait.sabi_as_unerased env k (DynTrait.from_ptr env k p i pk)
      = .ok p
  ∧ DynTrait.sabi_as_unerased_mut env k (DynTrait.from_ptr env k p i pk)
      = .ok p := by
  have h1 := check_same_destructor_ok_of_vtable_eq env k
    (DynTrait.from_any_value env k v i) rfl
  have h2 := check_same_destructor_ok_of_vtable_eq env k
    (DynTrait.from_any_ptr env k p i pk) rfl
  have h3 := check_same_destructor_ok_of_vtable_eq env k
    (DynTrait.from_value env k v i) rfl
  have h4 := check_same_destructor_ok_of_vtable_eq env k
    (DynTrait.from_ptr env k p i pk) rfl
  refine ⟨?_, ?_, ?_, ?_, ?_, ?_, ?_, ?_⟩ <;>
    simp [DynTrait.sabi_into_any_unerased, DynTrait.sabi_as_any_unerased,
      DynTrait.sabi_as_any_unerased_mut, DynTrait.sabi_into_unerased,
      DynTrait.sabi_as_unerased, DynTrait.sabi_as_unerased_mut,
      h1, h2, h3, h4] <;>
    rfl

/-- C2: when the candidate type key's freshly derived vtable is neither
address-equal to the container's stored (masked) vtable nor structurally
compatible with it, every recovery operation returns the `UneraseError`
carrying both vtables' addresses and both type-info descriptors, whose
`into_inner` returns the original container unchanged, so the recovery
can be retried (and fails identically); recovery never consumes the data
without delivering either the concrete value or the original back. -/
theorem C2_failed_recovery_returns_original (env : Env) (k : Nat)
    (c : DynTrait)
    (haddr : c.sabi_vtable_address ≠ env.get_vtable k)
    (hinfo : (c.sabi_vtable env).type_info.is_compatible
        (env.vtableAt (env.get_vtable k)).type_info = false) :
    c.sabi_into_unerased env k = .error (expectedUneraseError env k c)
  ∧ c.sabi_as_unerased env k = .error (expectedUneraseError env k c)
  ∧ c.sabi_as_unerased_mut env k = .error (expectedUneraseError env k c)
  ∧ c.sabi_into_any_unerased env k = .error (expectedUneraseError env k c)
  ∧ c.sabi_as_any_unerased env k = .error (expectedUneraseError env k c)
  ∧ c.sabi_as_any_unerased_mut env k = .error (expectedUneraseError env k c)
  ∧ (expectedUneraseError env k c).expected_vtable_address = env.get_vtable k
  ∧ (expectedUneraseError env k c).found_vtable_address = c.vtable
  ∧ (expectedUneraseError env k c).expected_type_info
      = (env.vtableAt (env.get_vtable k)).type_info
  ∧ (expectedUneraseError env k c).found_type_info
      = (c.sabi_vtable env).type_info
  ∧ (expectedUneraseError env k c).into_inner = c
  ∧ ((expectedUneraseError env k c).into_inner).sabi_into_unerased env k
      = .error (expectedUneraseError env k c) := by
  have hc := check_same_destructor_error env k c haddr hinfo
  refine ⟨?_, ?_, ?_, ?_, ?_, ?_, rfl, rfl, rfl, rfl, rfl, ?_⟩ <;>
    simp [DynTrait.sabi_into_any_unerased, DynTrait.sabi_as_any_unerased,
      DynTrait.sabi_as_any_unerased_mut, DynTrait.sabi_into_unerased,
      DynTrait.sabi_as_unerased, DynTrait.sabi_as_unerased_mut,
      UneraseError.into_inner, hc, UneraseError.map, expectedUneraseError]

/-- Witness for C2: a concrete container whose stored vtable (address
`32`) differs from the vtable freshly derived for key `0` (address `16`,
with a structurally different type-info descriptor). -/
theorem C2_failed_recovery_returns_original_witness :
    DynTrait.sabi_into_unerased envW 0
        { object := 7, vtable := 32, extra_vtable := 0,
          interface := interfaceW, ptrKind := .smartPointer }
      = .error (expectedUneraseError envW 0
          { object := 7, vtable := 32, extra_vtable := 0,
            interface := interfaceW, ptrKind := .smartPointer })
  ∧ (expectedUneraseError envW 0
        { object := 7, vtable := 32, extra_vtable := 0,
          interface := interfaceW, ptrKind := .smartPointer }).into_inner
      = { object := 7, vtable := 32, extra_vtable := 0,
          interface := interfaceW, ptrKind := .smartPointer } :=
  let h := C2_failed_recovery_returns_original envW 0
    { object := 7, vtable := 32, extra_vtable := 0,
      interface := interfaceW, ptrKind := .smartPointer }
    (by decide) (by decide)
  ⟨h.1, h.2.2.2.2.2.2.2.2.2.2.1⟩

/-- C3: dropping a container with the borrowed flag set performs no
destruction; dropping one without the flag invokes the table's destructor
exactly once with run-destructor and deallocate both requested; a
reborrow (shared or exclusive) drops as a no-op, so dropping the reborrow
and then the original invokes the destructor exactly once — no double
destruction — and the reborrow leaves the original container itself
unchanged. -/
theorem C3_drop_and_reborrow_no_double_destruction (c : DynTrait)
    (hb : ReborrowBounds c.interface.send c.interface.sync)
    (hflags : c.sabi_vtable_ptr_flags &&& PTR_FLAG_IS_BORROWED
        ≠ PTR_FLAG_IS_BORROWED) :
    (∀ d : DynTrait,
        d.sabi_vtable_ptr_flags &&& PTR_FLAG_IS_BORROWED = PTR_FLAG_IS_BORROWED
        → d.dropEffect = .noop)
  ∧ c.dropEffect
      = .invokeDestructor c.sabi_vtable_address c.object .yes .yes
  ∧ (c.reborrow hb).dropEffect = .noop
  ∧ (c.reborrow_mut hb).dropEffect = .noop
  ∧ destructorCount [(c.reborrow hb).dropEffect, c.dropEffect] = 1
  ∧ destructorCount [(c.reborrow_mut hb).dropEffect, c.dropEffect] = 1 := by
  have hre : (c.reborrow hb).dropEffect = .noop := by
    have h := flags_of_lor_borrowed c.vtable
    simp [DynTrait.dropEffect, DynTrait.reborrow,
      DynTrait.sabi_vtable_ptr_flags, h]
  have hrem : (c.reborrow_mut hb).dropEffect = .noop := by
    have h := flags_of_lor_borrowed c.vtable
    simp [DynTrait.dropEffect, DynTrait.reborrow_mut,
      DynTrait.sabi_vtable_ptr_flags, h]
  have hown : c.dropEffect
      = .invokeDestructor c.sabi_vtable_address c.object .yes .yes := by
    simp [DynTrait.dropEffect, hflags]
  refine ⟨?_, hown, hre, hrem, ?_, ?_⟩
  · intro d hd
    simp [DynTrait.dropEffect, hd]
  · rw [hre, hown]
    rfl
  · rw [hrem, hown]
    rfl

/-- Witness for C3: an owning container freshly constructed in the
concrete world (flag bits clear, so the borrowed flag is not set). -/
theorem C3_drop_and_reborrow_no_double_destruction_witness :
    (DynTrait.from_any_value envW 0 7 interfaceW).dropEffect
      = .invokeDestructor
          (DynTrait.from_any_value envW 0 7 interfaceW).sabi_vtable_address
          7 .yes .yes
  ∧ ((DynTrait.from_any_value envW 0 7 interfaceW).reborrow
        ReborrowBounds.neither).dropEffect = .noop :=
  let h := C3_drop_and_reborrow_no_double_destruction
    (DynTrait.from_any_value envW 0 7 interfaceW)
    ReborrowBounds.neither (by decide)
  ⟨h.2.1, h.2.2.1⟩

/-- C4: the type-identity check of `sabi_is_same_type` and the test
inside `sabi_check_same_destructor` hold exactly when the two vtable
addresses are equal or the two type-info descriptors compare
structurally compatible; when the destructor check fails, recovery
returns the error value (carrying the container unchanged) and never
touches the erased object. -/
theorem C4_same_type_check_iff (env : Env) (k : Nat) (a b c : DynTrait) :
    (a.sabi_is_same_type env b = true
      ↔ (a.sabi_vtable_address = b.sabi_vtable_address
          ∨ (a.sabi_vtable env).type_info.is_compatible
              (b.sabi_vtable env).type_info = true))
  ∧ (c.sabi_check_same_destructor env k = .ok ()
      ↔ (c.sabi_vtable_address = env.get_vtable k
          ∨ (c.sabi_vtable env).type_info.is_compatible
              (env.vtableAt (env.get_vtable k)).type_info = true))
  ∧ (∀ e, c.sabi_check_same_destructor env k = .error e
      → c.sabi_into_unerased env k = .error (e.map fun _ => c)
        ∧ (e.map fun _ => c).into_inner = c) := by
  refine ⟨?_, ?_, ?_⟩
  · simp [DynTrait.sabi_is_same_type]
  · constructor
    · intro h
      by_contra hcon
      push_neg at hcon
      rw [show c.sabi_check_same_destructor env k = .error
          { dyn_trait := ()
            expected_vtable_address := env.get_vtable k
            expected_type_info := (env.vtableAt (env.get_vtable k)).type_info
            found_vtable_address := c.vtable
            found_type_info := (c.sabi_vtable env).type_info }
          from check_same_destructor_error env k c hcon.1
            (by simpa using hcon.2)] at h
      exact Except.noConfusion h
    · intro h
      unfold DynTrait.sabi_check_same_destructor
      rcases h with h | h <;> simp [h]
  · intro e he
    constructor
    · simp [DynTrait.sabi_into_unerased, he]
    · rfl

/-- A concrete container stored at vtable address `48` used by the
witnesses. -/
def containerW48 : DynTrait :=
  { object := 7, vtable := 48, extra_vtable := 0,
    interface := interfaceW, ptrKind := .smartPointer }

/-- The diagnostic (before `check_unerased!` maps it) that the destructor
check produces for `containerW48` against key `0` in the concrete
world. -/
def rawErrorW48 : UneraseError Unit :=
  { dyn_trait := ()
    expected_vtable_address := envW.get_vtable 0
    expected_type_info := (envW.vtableAt (envW.get_vtable 0)).type_info
    found_vtable_address := containerW48.vtable
    found_type_info := (containerW48.sabi_vtable envW).type_info }

/-- Witness for C4: the destructor check for key `0` fails on a concrete
container with a different stored vtable, and recovery then returns the
error carrying that container unchanged. -/
theorem C4_same_type_check_iff_witness :
    DynTrait.sabi_into_unerased envW 0 containerW48
      = .error (rawErrorW48.map fun _ => containerW48)
  ∧ (rawErrorW48.map fun _ => containerW48).into_inner = containerW48 :=
  (C4_same_type_check_iff envW 0 containerW48 containerW48 containerW48).2.2
    rawErrorW48 (by rfl)

/-- C5: for containers holding pairwise incompatible erased types
(`sabi_is_same_type` fails), equality returns `false` in both directions,
`cmp` and `partial_cmp` return the comparison of the two stored vtable
addresses, and on such containers `cmp` behaves as a total order:
antisymmetric (swapping the arguments swaps the ordering), transitive,
and never `eq` — all without panicking (`dynCmp` is a total function). -/
theorem C5_cross_type_total_order (env : Env) (a b c : DynTrait)
    (hab : a.sabi_is_same_type env b = false)
    (hbc : b.sabi_is_same_type env c = false)
    (hac : a.sabi_is_same_type env c = false) :
    DynTrait.dynEq env a b = false
  ∧ DynTrait.dynEq env b a = false
  ∧ DynTrait.dynCmp env a b
      = compare a.sabi_vtable_address b.sabi_vtable_address
  ∧ DynTrait.dynPartialCmp env a b
      = some (compare a.sabi_vtable_address b.sabi_vtable_address)
  ∧ (DynTrait.dynCmp env a b).swap = DynTrait.dynCmp env b a
  ∧ (DynTrait.dynCmp env a b = .lt → DynTrait.dynCmp env b c = .lt
      → DynTrait.dynCmp env a c = .lt)
  ∧ DynTrait.dynCmp env a b ≠ .eq := by
  have hba : b.sabi_is_same_type env a = false := by
    rw [sabi_is_same_type_comm]
    exact hab
  have cab : DynTrait.dynCmp env a b
      = compare a.sabi_vtable_address b.sabi_vtable_address := by
    simp [DynTrait.dynCmp, hab]
  have cba : DynTrait.dynCmp env b a
      = compare b.sabi_vtable_address a.sabi_vtable_address := by
    simp [DynTrait.dynCmp, hba]
  have cbc : DynTrait.dynCmp env b c
      = compare b.sabi_vtable_address c.sabi_vtable_address := by
    simp [DynTrait.dynCmp, hbc]
  have cac : DynTrait.dynCmp env a c
      = compare a.sabi_vtable_address c.sabi_vtable_address := by
    simp [DynTrait.dynCmp, hac]
  have hne : a.sabi_vtable_address ≠ b.sabi_vtable_address := by
    intro h
    have : a.sabi_is_same_type env b = true := by
      simp [DynTrait.sabi_is_same_type, h]
    rw [hab] at this
    exact Bool.noConfusion this
  refine ⟨?_, ?_, cab, ?_, ?_, ?_, ?_⟩
  · simp [DynTrait.dynEq, hab]
  · simp [DynTrait.dynEq, hba]
  · simp [DynTrait.dynPartialCmp, hab]
  · rw [cab, cba]
    exact Nat.compare_swap a.sabi_vtable_address b.sabi_vtable_address
  · intro h1 h2
    rw [cab, Nat.compare_eq_lt] at h1
    rw [cbc, Nat.compare_eq_lt] at h2
    rw [cac, Nat.compare_eq_lt]
    exact Nat.lt_trans h1 h2
  · rw [cab]
    intro h
    exact hne (Nat.compare_eq_eq.mp h)

/-- A concrete container stored at vtable address `16` used by the
witnesses. -/
def containerW16 : DynTrait :=
  { object := 3, vtable := 16, extra_vtable := 0,
    interface := interfaceW, ptrKind := .smartPointer }

/-- A concrete container stored at vtable address `32` used by the
witnesses. -/
def containerW32 : DynTrait :=
  { object := 5, vtable := 32, extra_vtable := 0,
    interface := interfaceW, ptrKind := .smartPointer }

/-- Witness for C5: three concrete containers with pairwise incompatible
stored vtables order by their vtable addresses. -/
theorem C5_cross_type_total_order_witness :
    DynTrait.dynEq envW containerW16 containerW32 = false
  ∧ DynTrait.dynCmp envW containerW16 containerW32
      = compare containerW16.sabi_vtable_address
          containerW32.sabi_vtable_address :=
  let h := C5_cross_type_total_order envW containerW16 containerW32
    containerW48 (by decide) (by decide) (by decide)
  ⟨h.1, h.2.2.1⟩

/-- C6: a prefix-type field access at an index not below the actual
stored field count fails loudly through `panic_on_missing_field_val`
(and its `panic_on_missing_field_ty` wrapper), whose return type has no
normal-return case, and whose diagnostic names the requested field's
index, name and type, the struct type and package, the expected layout's
package version and field count, and the actual layout's package version
and field count. -/
theorem C6_missing_field_access_panics (expected actual : TypeLayout)
    (efsf afsf : Nat) (efields afields : List TLField)
    (he : expected.data = .prefixType efsf efields)
    (ha : actual.data = .prefixType afsf afields)
    (index : Nat) (field : TLField)
    (hidx : afields.length ≤ index)
    (hfield : efields[index]? = some field) :
    get_field expected actual index = .error (.missingField
      { index := index
        field_named := field.name
        field_type := field.ty_full_type
        struct_type := expected.full_type
        package := expected.package
        expected_package_version := expected.package_version
        expected_field_count := efields.length
        actual_package_version := actual.package_version
        actual_field_count := afields.length })
  ∧ panic_on_missing_field_val index expected actual = .missingField
      { index := index
        field_named := field.name
        field_type := field.ty_full_type
        struct_type := expected.full_type
        package := expected.package
        expected_package_version := expected.package_version
        expected_field_count := efields.length
        actual_package_version := actual.package_version
        actual_field_count := afields.length }
  ∧ panic_on_missing_field_ty expected index actual = .missingField
      { index := index
        field_named := field.name
        field_type := field.ty_full_type
        struct_type := expected.full_type
        package := expected.package
        expected_package_version := expected.package_version
        expected_field_count := efields.length
        actual_package_version := actual.package_version
        actual_field_count := afields.length } := by
  have hnone : afields[index]? = none := List.getElem?_eq_none hidx
  have hval : panic_on_missing_field_val index expected actual
      = .missingField
        { index := index
          field_named := field.name
          field_type := field.ty_full_type
          struct_type := expected.full_type
          package := expected.package
          expected_package_version := expected.package_version
          expected_field_count := efields.length
          actual_package_version := actual.package_version
          actual_field_count := afields.length } := by
    simp [panic_on_missing_field_val, PrefixTypeMetadata.new, he, ha, hfield]
  refine ⟨?_, hval, hval⟩
  simp [get_field, PrefixTypeMetadata.new, ha, hnone, hval]

/-- The newer component's layout used by the C6 witness: two declared
fields. -/
def layoutNewW : TypeLayout :=
  { full_type := "ModuleVtable"
    package := "demo"
    package_version := "1.1.0"
    data := .prefixType 1
      [{ name := "f0", ty_full_type := "fn0" },
       { name := "f1", ty_full_type := "fn1" }] }

/-- The older component's layout used by the C6 witness: one stored
field. -/
def layoutOldW : TypeLayout :=
  { full_type := "ModuleVtable"
    package := "demo"
    package_version := "1.0.0"
    data := .prefixType 1 [{ name := "f0", ty_full_type := "fn0" }] }

/-- Witness for C6: accessing field index `1` of an instance that stores
only one field panics with the full diagnostic. -/
theorem C6_missing_field_access_panics_witness :
    get_field layoutNewW layoutOldW 1 = .error (.missingField
      { index := 1
        field_named := "f1"
        field_type := "fn1"
        struct_type := "ModuleVtable"
        package := "demo"
        expected_package_version := "1.1.0"
        expected_field_count := 2
        actual_package_version := "1.0.0"
        actual_field_count := 1 }) :=
  (C6_missing_field_access_panics layoutNewW layoutOldW 1 1
    [{ name := "f0", ty_full_type := "fn0" },
     { name := "f1", ty_full_type := "fn1" }]
    [{ name := "f0", ty_full_type := "fn0" }]
    rfl rfl 1 { name := "f1", ty_full_type := "fn1" }
    (by decide) (by decide)).1

/-- C7: `max` returns one of its two arguments — the second when the
first has strictly fewer fields, the first otherwise — so the result's
field count is the maximum of the two; `min_max` returns a permutation
of its argument pair whose first component has at most as many fields as
the second, and whose second component is exactly `max`. -/
theorem C7_max_min_max_pick_most_capable (a b : PrefixTypeMetadata) :
    (PrefixTypeMetadata.max a b = a ∨ PrefixTypeMetadata.max a b = b)
  ∧ (a.fields.length < b.fields.length → PrefixTypeMetadata.max a b = b)
  ∧ (b.fields.length ≤ a.fields.length → PrefixTypeMetadata.max a b = a)
  ∧ (PrefixTypeMetadata.max a b).fields.length
      = Nat.max a.fields.length b.fields.length
  ∧ (PrefixTypeMetadata.min_max a b = (a, b)
      ∨ PrefixTypeMetadata.min_max a b = (b, a))
  ∧ (PrefixTypeMetadata.min_max a b).1.fields.length
      ≤ (PrefixTypeMetadata.min_max a b).2.fields.length
  ∧ (PrefixTypeMetadata.min_max a b).2 = PrefixTypeMetadata.max a b := by
  unfold PrefixTypeMetadata.max PrefixTypeMetadata.min_max
  by_cases h : a.fields.length < b.fields.length
  · rw [if_pos h, if_pos h]
    exact ⟨Or.inr rfl, fun _ => rfl, fun hle => absurd h (Nat.not_lt.mpr hle),
      (Nat.max_eq_right (Nat.le_of_lt h)).symm, Or.inl rfl, Nat.le_of_lt h, rfl⟩
  · rw [if_neg h, if_neg h]
    exact ⟨Or.inl rfl, fun hlt => absurd hlt h, fun _ => rfl,
      (Nat.max_eq_left (Nat.le_of_not_lt h)).symm, Or.inr rfl,
      Nat.le_of_not_lt h, rfl⟩

/-- A one-field metadata value used by the C7 witness. -/
def metadataSmallW : PrefixTypeMetadata :=
  { prefix_field_count := 1
    fields := [{ name := "f0", ty_full_type := "fn0" }]
    layout := layoutOldW }

/-- A two-field metadata value used by the C7 witness. -/
def metadataLargeW : PrefixTypeMetadata :=
  { prefix_field_count := 1
    fields := [{ name := "f0", ty_full_type := "fn0" },
               { name := "f1", ty_full_type := "fn1" }]
    layout := layoutNewW }

/-- Witness for C7: with a one-field and a two-field metadata value,
`max` picks the two-field one and `min_max` orders them. -/
theorem C7_max_min_max_pick_most_capable_witness :
    PrefixTypeMetadata.max metadataSmallW metadataLargeW = metadataLargeW
  ∧ PrefixTypeMetadata.min_max metadataSmallW metadataLargeW
      = (metadataSmallW, metadataLargeW) :=
  let h := C7_max_min_max_pick_most_capable metadataSmallW metadataLargeW
  ⟨h.2.1 (by decide),
   (h.2.2.2.2.1).resolve_right (by decide)⟩

/-- C8: `destroy_box` runs the referent's destructor (`drop_in_place`)
exactly when the call-destructor flag is `Yes` and frees the backing
allocation exactly when the deallocate flag is `Yes`; the two flags act
independently, and with both `No` the call performs no heap effect at
all. -/
theorem C8_destroy_box_flag_independence (p : Nat) (cd : CallReferentDrop)
    (da : Deallocate) :
    (HeapOp.dropInPlace p ∈ destroy_box p cd da ↔ cd = .yes)
  ∧ (HeapOp.deallocate p ∈ destroy_box p cd da ↔ da = .yes)
  ∧ destroy_box p .yes .yes = [.dropInPlace p, .deallocate p]
  ∧ destroy_box p .yes .no = [.dropInPlace p]
  ∧ destroy_box p .no .yes = [.deallocate p]
  ∧ destroy_box p .no .no = [] := by
  cases cd <;> cases da <;> simp [destroy_box]

/-- Witness for C8: heap effects of a concrete `destroy_box` call. -/
theorem C8_destroy_box_flag_independence_witness :
    HeapOp.dropInPlace 5 ∈ destroy_box 5 .yes .no
  ∧ destroy_box 5 .no .no = [] :=
  let h := C8_destroy_box_flag_independence 5 .yes .no
  ⟨h.1.mpr rfl, h.2.2.2.2.2⟩

/-- C9: a reborrow (shared or exclusive) carries exactly the same
interface descriptor as the original — in particular the same Send and
Sync classification — and reborrowing is admitted only when the
interface's Send and Sync flags are equal (`ReborrowBounds`); a shared
reborrow (reference pointer kind) exposes no `default()`, and an
exclusive reborrow (mutable-reference kind) exposes neither `default()`
nor `clone()`. -/
theorem C9_reborrow_preserves_interface (c : DynTrait)
    (h : ReborrowBounds c.interface.send c.interface.sync) :
    (c.reborrow h).interface = c.interface
  ∧ (c.reborrow_mut h).interface = c.interface
  ∧ (c.reborrow h).interface.send = c.interface.send
  ∧ (c.reborrow h).interface.sync = c.interface.sync
  ∧ (c.reborrow_mut h).interface.send = c.interface.send
  ∧ (c.reborrow_mut h).interface.sync = c.interface.sync
  ∧ (∀ s y : Bool, ReborrowBounds s y ↔ s = y)
  ∧ DynTrait.default_available (c.reborrow h) = false
  ∧ DynTrait.default_available (c.reborrow_mut h) = false
  ∧ DynTrait.clone_available (c.reborrow_mut h) = false := by
  refine ⟨rfl, rfl, rfl, rfl, rfl, rfl, ReborrowBounds.iff_eq, ?_, ?_, rfl⟩ <;>
    simp [DynTrait.default_available, DynTrait.reborrow, DynTrait.reborrow_mut]

/-- Witness for C9: a concrete reborrow keeps the interface and loses
`default()`; a concrete exclusive reborrow also loses `clone()`. -/
theorem C9_reborrow_preserves_interface_witness :
    (containerW16.reborrow ReborrowBounds.neither).interface
      = containerW16.interface
  ∧ DynTrait.default_available
      (containerW16.reborrow ReborrowBounds.neither) = false
  ∧ DynTrait.clone_available
      (containerW16.reborrow_mut ReborrowBounds.neither) = false :=
  let h := C9_reborrow_preserves_interface containerW16 ReborrowBounds.neither
  ⟨h.1, h.2.2.2.2.2.2.2.1, h.2.2.2.2.2.2.2.2.2⟩

/-- C10: every construction entry point stores a vtable pointer whose
low four flag bits are clear; `reborrow`/`reborrow_mut` store the parent
pointer with `PTR_FLAG_IS_BORROWED` set in those bits; and the vtable
reads (`sabi_vtable`, `sabi_vtable_address`) mask the flag bits off, so
a reborrow dispatches through the identical dispatch table as its parent
and reports the same vtable address. -/
theorem C10_flag_bit_discipline (env : Env) (k p v ev : Nat)
    (i : Interface) (pk : PointerKind) (c : DynTrait)
    (hb : ReborrowBounds c.interface.send c.interface.sync) :
    (DynTrait.from_ptr env k p i pk).sabi_vtable_ptr_flags = 0
  ∧ (DynTrait.from_value env k v i).sabi_vtable_ptr_flags = 0
  ∧ (DynTrait.from_any_ptr env k p i pk).sabi_vtable_ptr_flags = 0
  ∧ (DynTrait.from_any_value env k v i).sabi_vtable_ptr_flags = 0
  ∧ (DynTrait.from_borrowing_ptr env k p i pk).sabi_vtable_ptr_flags = 0
  ∧ (DynTrait.from_borrowing_value env k v i).sabi_vtable_ptr_flags = 0
  ∧ (DynTrait.with_vtable env k p i pk ev).sabi_vtable_ptr_flags = 0
  ∧ (c.reborrow hb).vtable = (c.vtable ||| PTR_FLAG_IS_BORROWED)
  ∧ (c.reborrow_mut hb).vtable = (c.vtable ||| PTR_FLAG_IS_BORROWED)
  ∧ ((c.reborrow hb).sabi_vtable_ptr_flags &&& PTR_FLAG_IS_BORROWED
      = PTR_FLAG_IS_BORROWED)
  ∧ ((c.reborrow_mut hb).sabi_vtable_ptr_flags &&& PTR_FLAG_IS_BORROWED
      = PTR_FLAG_IS_BORROWED)
  ∧ (c.reborrow hb).sabi_vtable_address = c.sabi_vtable_address
  ∧ (c.reborrow_mut hb).sabi_vtable_address = c.sabi_vtable_address
  ∧ (c.reborrow hb).sabi_vtable env = c.sabi_vtable env
  ∧ (c.reborrow_mut hb).sabi_vtable env = c.sabi_vtable env := by
  have hflags0 : env.get_vtable k &&& PTR_FLAGS = 0 :=
    land_PTR_FLAGS_of_aligned (env.get_vtable_aligned k)
  have haddr : (c.vtable ||| PTR_FLAG_IS_BORROWED) &&& PTR_MASK
      = c.vtable &&& PTR_MASK := lor_borrowed_land_PTR_MASK c.vtable
  have hbflag := flags_of_lor_borrowed c.vtable
  exact ⟨hflags0, hflags0, hflags0, hflags0, hflags0, hflags0, hflags0,
    rfl, rfl, hbflag, hbflag, haddr, haddr,
    congrArg env.vtableAt haddr, congrArg env.vtableAt haddr⟩

/-- Witness for C10: the concrete world's constructors store clear flag
bits and a concrete reborrow reports the parent's vtable address. -/
theorem C10_flag_bit_discipline_witness :
    (DynTrait.from_any_value envW 0 7 interfaceW).sabi_vtable_ptr_flags = 0
  ∧ (containerW16.reborrow ReborrowBounds.neither).sabi_vtable_address
      = containerW16.sabi_vtable_address :=
  let h := C10_flag_bit_discipline envW 0 7 7 0 interfaceW .smartPointer
    containerW16 ReborrowBounds.neither
  ⟨h.2.2.2.1, h.2.2.2.2.2.2.2.2.2.2.2.1⟩

end AbiStable
